/-
Verification of the JupyterLab image viewer widget
(`packages/imageviewer/src/widget.ts`, class `ImageViewer`).

The widget's observable state and operations are embedded shallowly:

* numbers held in the five numeric properties are modelled as rationals
  (JavaScript numbers; every value occurring in the claims is exact in ℚ),
  except the rotation, which the spec declares an integer and which is the
  only field passed through the `%` operator, modelled as ℤ;
* JavaScript's `%` on integers truncates towards zero, which is `Int.tmod`;
* the DOM is reduced to the attributes the code writes: the inner
  container's `style.transform` and `style.filter` strings and the image
  element's `src` attribute;
* `styleUpdates` counts invocations of the private `updateStyle` routine,
  making "triggers a style recomputation" observable in the model;
* string interpolation of a number is `numToString`, which agrees with
  JavaScript's number formatting on integral values (the only values the
  claims evaluate).
-/
import Mathlib

namespace ImageViewer

/-- Rendering of a rational number to a string, standing in for JavaScript
template-literal interpolation of a number.  On integral values (the only
concrete values evaluated in this development) it agrees with JavaScript:
`2 ↦ "2"`, `-2 ↦ "-2"`. -/
def numToString (q : ℚ) : String :=
  if q.den = 1 then toString q.num else toString q.num ++ "/" ++ toString q.den

/-- JavaScript's `%` operator on integers: remainder of truncated division,
taking the sign of the dividend. -/
def jsRem (a b : ℤ) : ℤ :=
  Int.tmod a b

/-- The observable state owned by an `ImageViewer` widget: the five numeric
fields (`_scale`, `_rotation`, `_horizontalflip`, `_verticalflip`,
`_colorinversion`), the style strings written to the inner container node,
the `src` attribute of the image element (`none` before any render), and an
instrumentation counter of `updateStyle` invocations. -/
structure ViewerState where
  scale : ℚ
  rotation : ℤ
  horizontalflip : ℚ
  verticalflip : ℚ
  colorinversion : ℚ
  styleTransform : String
  styleFilter : String
  imgSrc : Option String
  styleUpdates : ℕ
  deriving DecidableEq

/-- Field initializers of the class: scale 1, rotation 0, flips 1,
color inversion 0; no style written yet and no image source set. -/
def initialState : ViewerState where
  scale := 1
  rotation := 0
  horizontalflip := 1
  verticalflip := 1
  colorinversion := 0
  styleTransform := ""
  styleFilter := ""
  imgSrc := none
  styleUpdates := 0

/-- `ImageViewer.updateStyle`: builds the transform string by successive
concatenation — centering translation, then a scale whose factors are
`scale * horizontalflip` and `scale * verticalflip`, then a rotation by the
stored degrees — and the filter string `invert(colorinversion)`, and writes
both to the inner container's style. -/
def updateStyle (st : ViewerState) : ViewerState :=
  let transformString : String := "translate(-50%,-50%) "
  let transformString := transformString ++ "scale(" ++
    numToString (st.scale * st.horizontalflip) ++ "," ++
    numToString (st.scale * st.verticalflip) ++ ") "
  let transformString := transformString ++ "rotate(" ++
    toString st.rotation ++ "deg)"
  let filterString := "invert(" ++ numToString st.colorinversion ++ ")"
  { st with
    styleTransform := transformString
    styleFilter := filterString
    styleUpdates := st.styleUpdates + 1 }

/-- The `scale` property setter: no-op when the new value equals the stored
one, else store and recompute the style. -/
def setScale (value : ℚ) (st : ViewerState) : ViewerState :=
  if value = st.scale then st
  else updateStyle { st with scale := value }

/-- The `rotation` property setter: the equality short-circuit compares the
raw argument with the stored value; only afterwards is the argument reduced
with JavaScript's `%` by 360 and stored. -/
def setRotation (value : ℤ) (st : ViewerState) : ViewerState :=
  if value = st.rotation then st
  else updateStyle { st with rotation := jsRem value 360 }

/-- The `horizontalflip` property setter. -/
def setHorizontalflip (value : ℚ) (st : ViewerState) : ViewerState :=
  if value = st.horizontalflip then st
  else updateStyle { st with horizontalflip := value }

/-- The `verticalflip` property setter. -/
def setVerticalflip (value : ℚ) (st : ViewerState) : ViewerState :=
  if value = st.verticalflip then st
  else updateStyle { st with verticalflip := value }

/-- The `colorinversion` property setter. -/
def setColorinversion (value : ℚ) (st : ViewerState) : ViewerState :=
  if value = st.colorinversion then st
  else updateStyle { st with colorinversion := value }

/-- The document context's contents model: declared mimetype and format. -/
structure ContentsModel where
  mimetype : String
  format : String
  deriving DecidableEq

/-- The slice of the external document context the widget reads when
rendering: the optional contents model, the model's string content
(`context.model.toString()`), and the point-in-time readiness flag. -/
structure Context where
  contentsModel : Option ContentsModel
  modelContent : String
  isReady : Bool
  deriving DecidableEq

/-- `ImageViewer._render`: if the context has no contents model the render
is skipped; otherwise the data URI `data:{mimetype};{format},{content}` is
assigned to the image element's `src` attribute. -/
def render (ctx : Context) (st : ViewerState) : ViewerState :=
  match ctx.contentsModel with
  | none => st
  | some cm =>
    { st with
      imgSrc := some ("data:" ++ cm.mimetype ++ ";" ++ cm.format ++ "," ++
        ctx.modelContent) }

/-- `ImageViewer.onUpdateRequest`: returns without rendering when the widget
is disposed or the context is not ready, else re-renders. -/
def onUpdateRequest (isDisposed : Bool) (ctx : Context) (st : ViewerState) :
    ViewerState :=
  if isDisposed || !ctx.isReady then st
  else render ctx st

/-- One call to one of the five public property setters. -/
inductive SetterCall where
  | scale (value : ℚ)
  | rotation (value : ℤ)
  | horizontalflip (value : ℚ)
  | verticalflip (value : ℚ)
  | colorinversion (value : ℚ)
  deriving DecidableEq

/-- Dispatch of a setter call to the corresponding property setter. -/
def applySetter (c : SetterCall) (st : ViewerState) : ViewerState :=
  match c with
  | .scale v => setScale v st
  | .rotation v => setRotation v st
  | .horizontalflip v => setHorizontalflip v st
  | .verticalflip v => setVerticalflip v st
  | .colorinversion v => setColorinversion v st

/-- A sequence of setter calls, applied in order. -/
def applySetters (cs : List SetterCall) (st : ViewerState) : ViewerState :=
  cs.foldl (fun s c => applySetter c s) st

/-- The whole widget as seen by the event model: the viewer state, the
`isDisposed` flag, the two subscriptions wired by the readiness
continuation, whether that one-shot continuation has already run, the
context's readiness flag, how often `this.ready.resolve` has been invoked,
and how often `this.render` has been invoked. -/
structure DisplayWidget where
  st : ViewerState
  isDisposed : Bool
  contentSubscribed : Bool
  fileSubscribed : Bool
  continuationRun : Bool
  ctxReady : Bool
  resolveCount : ℕ
  renderCalls : ℕ
  deriving DecidableEq

/-- Widget as constructed: no subscriptions, context not yet ready, ready
promise unresolved, nothing rendered. -/
def initialWidget : DisplayWidget where
  st := initialState
  isDisposed := false
  contentSubscribed := false
  fileSubscribed := false
  continuationRun := false
  ctxReady := false
  resolveCount := 0
  renderCalls := 0

/-- The continuation the constructor chains on `context.ready`: return at
once when the widget is disposed; otherwise render, subscribe to the
model's content changes and to file changes, and resolve the widget's
ready promise. -/
def readyContinuation (ctx : Context) (w : DisplayWidget) : DisplayWidget :=
  if w.isDisposed then w
  else
    { w with
      st := render ctx w.st
      renderCalls := w.renderCalls + 1
      contentSubscribed := true
      fileSubscribed := true
      resolveCount := w.resolveCount + 1 }

/-- The external events a widget instance can observe: the context's ready
promise resolving, disposal, an update request, a setter call. -/
inductive Event where
  | readyFired
  | dispose
  | updateRequest
  | setter (c : SetterCall)
  deriving DecidableEq

/-- One event step.  The ready promise fires its chained continuation at
most once (`continuationRun` latches); disposal sets the flag; an update
request follows `onUpdateRequest` with the current readiness; a setter call
applies the setter. -/
def step (ctx : Context) (w : DisplayWidget) (e : Event) : DisplayWidget :=
  match e with
  | .readyFired =>
    if w.continuationRun then { w with ctxReady := true }
    else readyContinuation ctx { w with continuationRun := true, ctxReady := true }
  | .dispose => { w with isDisposed := true }
  | .updateRequest =>
    if w.isDisposed || !w.ctxReady then w
    else { w with st := render ctx w.st, renderCalls := w.renderCalls + 1 }
  | .setter c => { w with st := applySetter c w.st }

/-- Run of a trace of events from a widget state. -/
def run (ctx : Context) (w : DisplayWidget) (tr : List Event) : DisplayWidget :=
  tr.foldl (step ctx) w

/-- `true` when the trace contains a `readyFired` event and no `dispose`
event precedes the first one. -/
def readyBeforeDispose : List Event → Bool
  | [] => false
  | Event.dispose :: _ => false
  | Event.readyFired :: _ => true
  | _ :: rest => readyBeforeDispose rest

/-- A context carrying a PNG contents model, used as concrete input. -/
def pngContext : Context where
  contentsModel := some { mimetype := "image/png", format := "base64" }
  modelContent := "AAAA"
  isReady := true

/-- A ready context without a contents model, used as concrete input. -/
def emptyContext : Context where
  contentsModel := none
  modelContent := ""
  isReady := true

/-- A context that has not reached readiness, used as concrete input. -/
def notReadyContext : Context where
  contentsModel := some { mimetype := "image/png", format := "base64" }
  modelContent := "AAAA"
  isReady := false

/-- A freshly constructed widget that has been disposed. -/
def disposedWidget : DisplayWidget :=
  { initialWidget with isDisposed := true }

/-- Arguments the spec's data model declares for each setter: flips in
the two-element set, color inversion in the unit interval, scale and
rotation unconstrained. -/
def ValidArg : SetterCall → Prop
  | .horizontalflip v => v = -1 ∨ v = 1
  | .verticalflip v => v = -1 ∨ v = 1
  | .colorinversion v => 0 ≤ v ∧ v ≤ 1
  | _ => True

/-- The range invariant the spec's data model asserts for the flip and
color-inversion fields. -/
def RangeInv (st : ViewerState) : Prop :=
  (st.horizontalflip = -1 ∨ st.horizontalflip = 1) ∧
  (st.verticalflip = -1 ∨ st.verticalflip = 1) ∧
  0 ≤ st.colorinversion ∧ st.colorinversion ≤ 1

/-- The state after the call sequence of testable property 3 of the spec:
a scale of 2 followed by a horizontal flip. -/
def flipSequenceState : ViewerState :=
  setHorizontalflip (-1) (setScale 2 initialState)

/-- A concrete sequence of setter calls whose arguments all lie in the
ranges the data model declares. -/
def validCalls : List SetterCall :=
  [SetterCall.scale 2, SetterCall.rotation 400,
   SetterCall.horizontalflip (-1), SetterCall.colorinversion 1]

/-- Invariant of the event model tying the ready resolution to the
continuation latch, the render count, and context readiness. -/
def ResolveInv (w : DisplayWidget) : Prop :=
  (w.continuationRun = false → w.resolveCount = 0) ∧
  w.resolveCount ≤ 1 ∧
  w.resolveCount ≤ w.renderCalls ∧
  (w.resolveCount = 1 → w.ctxReady = true)

@[simp] lemma updateStyle_scale (st : ViewerState) :
    (updateStyle st).scale = st.scale := rfl

@[simp] lemma updateStyle_rotation (st : ViewerState) :
    (updateStyle st).rotation = st.rotation := rfl

@[simp] lemma updateStyle_horizontalflip (st : ViewerState) :
    (updateStyle st).horizontalflip = st.horizontalflip := rfl

@[simp] lemma updateStyle_verticalflip (st : ViewerState) :
    (updateStyle st).verticalflip = st.verticalflip := rfl

@[simp] lemma updateStyle_colorinversion (st : ViewerState) :
    (updateStyle st).colorinversion = st.colorinversion := rfl

@[simp] lemma updateStyle_imgSrc (st : ViewerState) :
    (updateStyle st).imgSrc = st.imgSrc := rfl

@[simp] lemma updateStyle_styleUpdates (st : ViewerState) :
    (updateStyle st).styleUpdates = st.styleUpdates + 1 := rfl

lemma jsRem_natAbs_lt (x : ℤ) : (jsRem x 360).natAbs < 360 := by
  unfold jsRem
  cases x with
  | ofNat m =>
    show (Int.ofNat (m % 360)).natAbs < 360
    simpa using Nat.mod_lt m (by omega)
  | negSucc m =>
    show (-(Int.ofNat ((m + 1) % 360))).natAbs < 360
    rw [Int.natAbs_neg]
    simpa using Nat.mod_lt (m + 1) (by omega)

lemma jsRem_of_nonneg (x : ℤ) (h : 0 ≤ x) :
    jsRem x 360 = x % 360 ∧ 0 ≤ jsRem x 360 := by
  unfold jsRem
  cases x with
  | ofNat m =>
    refine ⟨rfl, ?_⟩
    show (0 : ℤ) ≤ Int.ofNat (m % 360)
    exact Int.ofNat_nonneg _
  | negSucc m => exact absurd h (by simp)

lemma applySetter_preserves_range (c : SetterCall) (st : ViewerState)
    (hc : ValidArg c) (h : RangeInv st) : RangeInv (applySetter c st) := by
  obtain ⟨h1, h2, h3, h4⟩ := h
  cases c with
  | scale v =>
    show RangeInv (setScale v st)
    unfold setScale
    split
    · exact ⟨h1, h2, h3, h4⟩
    · exact ⟨h1, h2, h3, h4⟩
  | rotation v =>
    show RangeInv (setRotation v st)
    unfold setRotation
    split
    · exact ⟨h1, h2, h3, h4⟩
    · exact ⟨h1, h2, h3, h4⟩
  | horizontalflip v =>
    show RangeInv (setHorizontalflip v st)
    unfold setHorizontalflip
    split
    · exact ⟨h1, h2, h3, h4⟩
    · exact ⟨hc, h2, h3, h4⟩
  | verticalflip v =>
    show RangeInv (setVerticalflip v st)
    unfold setVerticalflip
    split
    · exact ⟨h1, h2, h3, h4⟩
    · exact ⟨h1, hc, h3, h4⟩
  | colorinversion v =>
    show RangeInv (setColorinversion v st)
    unfold setColorinversion
    split
    · exact ⟨h1, h2, h3, h4⟩
    · obtain ⟨hl, hr⟩ : (0 : ℚ) ≤ v ∧ v ≤ 1 := hc
      exact ⟨h1, h2, hl, hr⟩

lemma applySetters_preserves_range (cs : List SetterCall) (st : ViewerState)
    (hv : ∀ c ∈ cs, ValidArg c) (hst : RangeInv st) :
    RangeInv (applySetters cs st) := by
  induction cs generalizing st with
  | nil => exact hst
  | cons c rest ih =>
    have hstep : applySetters (c :: rest) st =
        applySetters rest (applySetter c st) := rfl
    rw [hstep]
    exact ih (applySetter c st)
      (fun d hd => hv d (List.mem_cons_of_mem _ hd))
      (applySetter_preserves_range c st (hv c (List.mem_cons_self _ _)) hst)

lemma step_preserves_resolveInv (ctx : Context) (w : DisplayWidget) (e : Event)
    (h : ResolveInv w) : ResolveInv (step ctx w e) := by
  obtain ⟨h1, h2, h3, h4⟩ := h
  cases e with
  | readyFired =>
    show ResolveInv (if w.continuationRun then { w with ctxReady := true }
      else readyContinuation ctx { w with continuationRun := true, ctxReady := true })
    by_cases hc : w.continuationRun = true
    · rw [if_pos hc]
      exact ⟨fun hh => h1 hh, h2, h3, fun _ => rfl⟩
    · have hc0 : w.continuationRun = false := by
        revert hc
        cases w.continuationRun <;> simp
      have h0 : w.resolveCount = 0 := h1 hc0
      rw [if_neg hc]
      unfold readyContinuation
      by_cases hd : w.isDisposed = true
      · rw [if_pos hd]
        refine ⟨?_, ?_, ?_, ?_⟩
        · intro hh
          exact nomatch hh
        · show w.resolveCount ≤ 1
          rw [h0]
          exact Nat.zero_le 1
        · exact h3
        · intro hh
          exact absurd (h0 ▸ hh) (by decide)
      · rw [if_neg hd]
        refine ⟨?_, ?_, ?_, ?_⟩
        · intro hh
          exact nomatch hh
        · show w.resolveCount + 1 ≤ 1
          rw [h0]
        · show w.resolveCount + 1 ≤ w.renderCalls + 1
          exact Nat.succ_le_succ h3
        · intro hh
          rfl
  | dispose => exact ⟨h1, h2, h3, h4⟩
  | updateRequest =>
    show ResolveInv (if w.isDisposed || !w.ctxReady then w
      else { w with st := render ctx w.st, renderCalls := w.renderCalls + 1 })
    split
    · exact ⟨h1, h2, h3, h4⟩
    · exact ⟨h1, h2, Nat.le_succ_of_le h3, h4⟩
  | setter c => exact ⟨h1, h2, h3, h4⟩

lemma run_preserves_resolveInv (ctx : Context) (tr : List Event)
    (w : DisplayWidget) (h : ResolveInv w) : ResolveInv (run ctx w tr) := by
  induction tr generalizing w with
  | nil => exact h
  | cons e rest ih => exact ih (step ctx w e) (step_preserves_resolveInv ctx w e h)

lemma step_fixed_after_continuation (ctx : Context) (w : DisplayWidget) (e : Event)
    (h : w.continuationRun = true) :
    (step ctx w e).continuationRun = true ∧
    (step ctx w e).resolveCount = w.resolveCount := by
  cases e with
  | readyFired =>
    have hif : step ctx w Event.readyFired = { w with ctxReady := true } := by
      show (if w.continuationRun then { w with ctxReady := true }
        else readyContinuation ctx { w with continuationRun := true, ctxReady := true }) =
        { w with ctxReady := true }
      rw [if_pos h]
    rw [hif]
    exact ⟨h, rfl⟩
  | dispose => exact ⟨h, rfl⟩
  | updateRequest =>
    show ((if w.isDisposed || !w.ctxReady then w
        else { w with st := render ctx w.st, renderCalls := w.renderCalls + 1 }).continuationRun = true) ∧
      ((if w.isDisposed || !w.ctxReady then w
        else { w with st := render ctx w.st, renderCalls := w.renderCalls + 1 }).resolveCount = w.resolveCount)
    split
    · exact ⟨h, rfl⟩
    · exact ⟨h, rfl⟩
  | setter c => exact ⟨h, rfl⟩

lemma run_resolveCount_fixed (ctx : Context) (tr : List Event)
    (w : DisplayWidget) (h : w.continuationRun = true) :
    (run ctx w tr).resolveCount = w.resolveCount := by
  induction tr generalizing w with
  | nil => rfl
  | cons e rest ih =>
    have hs := step_fixed_after_continuation ctx w e h
    have hr : run ctx w (e :: rest) = run ctx (step ctx w e) rest := rfl
    rw [hr, ih (step ctx w e) hs.1, hs.2]

lemma run_resolves_once_of_readyBeforeDispose (ctx : Context) (tr : List Event)
    (w : DisplayWidget) (hd : w.isDisposed = false) (hc : w.continuationRun = false)
    (ht : readyBeforeDispose tr = true) :
    (run ctx w tr).resolveCount = w.resolveCount + 1 := by
  induction tr generalizing w with
  | nil => simp [readyBeforeDispose] at ht
  | cons e rest ih =>
    cases e with
    | readyFired =>
      have hstep : step ctx w Event.readyFired =
          { w with
            st := render ctx w.st
            renderCalls := w.renderCalls + 1
            contentSubscribed := true
            fileSubscribed := true
            resolveCount := w.resolveCount + 1
            continuationRun := true
            ctxReady := true } := by
        show (if w.continuationRun then { w with ctxReady := true }
          else readyContinuation ctx { w with continuationRun := true, ctxReady := true }) = _
        rw [if_neg (by rw [hc]; simp)]
        unfold readyContinuation
        rw [if_neg (show ¬ (w.isDisposed = true) by rw [hd]; simp)]
      have hr : run ctx w (Event.readyFired :: rest) =
          run ctx (step ctx w Event.readyFired) rest := rfl
      rw [hr, hstep, run_resolveCount_fixed ctx rest _ rfl]
    | dispose => simp [readyBeforeDispose] at ht
    | updateRequest =>
      have ht' : readyBeforeDispose rest = true := ht
      have e1 : (step ctx w Event.updateRequest).isDisposed = false := by
        show (if w.isDisposed || !w.ctxReady then w
          else { w with st := render ctx w.st, renderCalls := w.renderCalls + 1 }).isDisposed = false
        split
        · exact hd
        · exact hd
      have e2 : (step ctx w Event.updateRequest).continuationRun = false := by
        show (if w.isDisposed || !w.ctxReady then w
          else { w with st := render ctx w.st, renderCalls := w.renderCalls + 1 }).continuationRun = false
        split
        · exact hc
        · exact hc
      have e3 : (step ctx w Event.updateRequest).resolveCount = w.resolveCount := by
        show (if w.isDisposed || !w.ctxReady then w
          else { w with st := render ctx w.st, renderCalls := w.renderCalls + 1 }).resolveCount = w.resolveCount
        split
        · rfl
        · rfl
      have hr : run ctx w (Event.updateRequest :: rest) =
          run ctx (step ctx w Event.updateRequest) rest := rfl
      have hres := ih (step ctx w Event.updateRequest) e1 e2 ht'
      rw [hr, hres, e3]
    | setter c =>
      have ht' : readyBeforeDispose rest = true := ht
      have hr : run ctx w (Event.setter c :: rest) =
          run ctx (step ctx w (Event.setter c)) rest := rfl
      rw [hr]
      exact ih (step ctx w (Event.setter c)) hd hc ht'

/-- Claim C1 (amended): after calling the rotation setter with an integer x
on a state whose stored rotation is already reduced, the stored rotation is
the JavaScript remainder of x by 360 (truncated division, sign of x), whose
magnitude is below 360; when x is non-negative this coincides with the
non-negative remainder x mod 360.  The original claim's non-negative
normalization fails for negative x. -/
theorem rotation_stores_truncated_remainder (x : ℤ) (st : ViewerState)
    (hst : st.rotation = jsRem st.rotation 360) :
    (setRotation x st).rotation = jsRem x 360 ∧
    (setRotation x st).rotation.natAbs < 360 ∧
    (0 ≤ x → (setRotation x st).rotation = x % 360 ∧
      0 ≤ (setRotation x st).rotation) := by
  have hr : (setRotation x st).rotation = jsRem x 360 := by
    unfold setRotation
    by_cases h : x = st.rotation
    · rw [if_pos h, h, ← hst]
    · rw [if_neg h]
      show (updateStyle { st with rotation := jsRem x 360 }).rotation = jsRem x 360
      rfl
  refine ⟨hr, ?_, fun hx => ?_⟩
  · rw [hr]
    exact jsRem_natAbs_lt x
  · rw [hr]
    exact jsRem_of_nonneg x hx

/-- Witness for C1: the reduced-state hypothesis holds of the initial state,
and setRotation(400) stores 400 tmod 360 = 40 there. -/
theorem rotation_stores_truncated_remainder_witness :
    initialState.rotation = jsRem initialState.rotation 360 ∧
    (setRotation 400 initialState).rotation = jsRem 400 360 ∧
    jsRem 400 360 = 40 :=
  ⟨by decide, (rotation_stores_truncated_remainder 400 initialState (by decide)).1,
   by decide⟩

/-- Counterexample to C1 as stated: setRotation(-10) stores -10, which is
negative (outside the claimed range) and is not the claimed 350. -/
theorem rotation_negative_counterexample :
    (setRotation (-10) initialState).rotation = -10 ∧
    ¬ (0 ≤ (setRotation (-10) initialState).rotation) ∧
    (setRotation (-10) initialState).rotation ≠ 350 := by decide

/-- Claim C2 (amended): the rotation setter's equality short-circuit
compares the raw argument with the stored value, before any normalization;
the call is a no-op exactly when the argument literally equals the stored
rotation, and any other argument — including one merely congruent modulo
360 — stores the normalized value and triggers a style recomputation. -/
theorem rotation_noop_only_on_exact_equality (v : ℤ) (st : ViewerState) :
    (v = st.rotation → setRotation v st = st) ∧
    (v ≠ st.rotation →
      (setRotation v st).rotation = jsRem v 360 ∧
      (setRotation v st).styleUpdates = st.styleUpdates + 1) := by
  constructor
  · intro h
    unfold setRotation
    rw [if_pos h]
  · intro h
    unfold setRotation
    rw [if_neg h]
    exact ⟨rfl, rfl⟩

/-- Witness for C2 at concrete inputs: an exactly-equal argument is a no-op
and a congruent-but-different argument increments the recomputation count. -/
theorem rotation_noop_only_on_exact_equality_witness :
    setRotation 40 (setRotation 40 initialState) = setRotation 40 initialState ∧
    (setRotation 400 (setRotation 40 initialState)).styleUpdates =
      (setRotation 40 initialState).styleUpdates + 1 :=
  ⟨(rotation_noop_only_on_exact_equality 40 (setRotation 40 initialState)).1
     (by decide),
   ((rotation_noop_only_on_exact_equality 400 (setRotation 40 initialState)).2
     (by decide)).2⟩

/-- Counterexample to C2 as stated: with stored rotation 40, the congruent
argument 400 is not a no-op — it triggers a style recomputation. -/
theorem rotation_congruent_value_triggers_recompute :
    (400 : ℤ) % 360 = (40 : ℤ) % 360 ∧
    (setRotation 40 initialState).rotation = 40 ∧
    (setRotation 400 (setRotation 40 initialState)).styleUpdates ≠
      (setRotation 40 initialState).styleUpdates := by decide

/-- Claim C3 (amended): the initial-readiness continuation does re-check the
disposed flag first — on a disposed widget it returns without rendering,
subscribing, or resolving the ready promise, just like the guarded update
path.  The original claim asserts the guard is absent. -/
theorem ready_continuation_checks_disposed (ctx : Context) (w : DisplayWidget)
    (h : w.isDisposed = true) : readyContinuation ctx w = w := by
  unfold readyContinuation
  rw [if_pos h]

/-- Witness for C3 on a concrete disposed widget. -/
theorem ready_continuation_checks_disposed_witness :
    disposedWidget.isDisposed = true ∧
    readyContinuation pngContext disposedWidget = disposedWidget :=
  ⟨rfl, ready_continuation_checks_disposed pngContext disposedWidget rfl⟩

/-- Counterexample to C3 as stated: on a disposed widget the continuation
mutates nothing — no render, no subscription, no resolution — so the
claimed missing disposal check is in fact present. -/
theorem ready_continuation_disposed_counterexample :
    disposedWidget.isDisposed = true ∧
    readyContinuation pngContext disposedWidget = disposedWidget ∧
    (readyContinuation pngContext disposedWidget).resolveCount = 0 ∧
    (readyContinuation pngContext disposedWidget).st.imgSrc = none ∧
    (readyContinuation pngContext disposedWidget).contentSubscribed = false := by
  decide

/-- Claim C4: a render with a contents model of mimetype m and format f and
model content c sets the image source to exactly
data: ++ m ++ ; ++ f ++ , ++ c. -/
theorem render_builds_data_uri (ctx : Context) (st : ViewerState)
    (m f c : String)
    (hm : ctx.contentsModel = some { mimetype := m, format := f })
    (hc : ctx.modelContent = c) :
    (render ctx st).imgSrc = some ("data:" ++ m ++ ";" ++ f ++ "," ++ c) := by
  unfold render
  rw [hm, hc]

/-- Witness for C4: a PNG base64 model with content AAAA renders exactly the
data URI of the spec's example. -/
theorem render_builds_data_uri_witness :
    pngContext.contentsModel =
      some { mimetype := "image/png", format := "base64" } ∧
    (render pngContext initialState).imgSrc =
      some "data:image/png;base64,AAAA" := by
  refine ⟨rfl, ?_⟩
  rw [render_builds_data_uri pngContext initialState "image/png" "base64" "AAAA"
    rfl rfl]
  decide

/-- Claim C5: the recomputed transform string is, in fixed order, the
centering translation, a scale whose factors are scale times the horizontal
and vertical flips, and a rotation by the stored degrees, with a separate
invert filter string; after a scale of 2 and a horizontal flip the factors
are exactly -2 and 2. -/
theorem updateStyle_transform_composition :
    (∀ st : ViewerState,
      (updateStyle st).styleTransform =
        "translate(-50%,-50%) " ++ "scale(" ++
          numToString (st.scale * st.horizontalflip) ++ "," ++
          numToString (st.scale * st.verticalflip) ++ ") " ++ "rotate(" ++
          toString st.rotation ++ "deg)" ∧
      (updateStyle st).styleFilter =
        "invert(" ++ numToString st.colorinversion ++ ")") ∧
    flipSequenceState.scale * flipSequenceState.horizontalflip = -2 ∧
    flipSequenceState.scale * flipSequenceState.verticalflip = 2 ∧
    flipSequenceState.styleTransform =
      "translate(-50%,-50%) scale(-2,2) rotate(0deg)" ∧
    flipSequenceState.styleFilter = "invert(0)" := by
  have h1 : (2 : ℚ) * (-1 : ℚ) = -2 := by norm_num
  have h2 : (2 : ℚ) * (1 : ℚ) = 2 := by norm_num
  refine ⟨fun st => ⟨rfl, rfl⟩, ?_, ?_, ?_, ?_⟩
  · show (2 : ℚ) * (-1 : ℚ) = -2
    exact h1
  · show (2 : ℚ) * (1 : ℚ) = 2
    exact h2
  · show "translate(-50%,-50%) " ++ "scale(" ++
        numToString ((2 : ℚ) * (-1 : ℚ)) ++ "," ++
        numToString ((2 : ℚ) * (1 : ℚ)) ++ ") " ++ "rotate(" ++
        toString (0 : ℤ) ++ "deg)" =
      "translate(-50%,-50%) scale(-2,2) rotate(0deg)"
    rw [h1, h2]
    decide
  · show "invert(" ++ numToString (0 : ℚ) ++ ")" = "invert(0)"
    decide

/-- Claim C6: each of the five setters, called with the value already in
effect, returns the state unchanged — fields, style strings, and
recomputation count included. -/
theorem setters_noop_on_equal_value (st : ViewerState) :
    setScale st.scale st = st ∧
    setRotation st.rotation st = st ∧
    setHorizontalflip st.horizontalflip st = st ∧
    setVerticalflip st.verticalflip st = st ∧
    setColorinversion st.colorinversion st = st := by
  refine ⟨?_, ?_, ?_, ?_, ?_⟩ <;>
    simp [setScale, setRotation, setHorizontalflip, setVerticalflip,
      setColorinversion]

/-- Claim C7: an update request leaves the state untouched when the widget
is disposed or the context is not ready, and otherwise re-runs the render
algorithm. -/
theorem onUpdateRequest_guarded (d : Bool) (ctx : Context) (st : ViewerState) :
    ((d = true ∨ ctx.isReady = false) → onUpdateRequest d ctx st = st) ∧
    (d = false → ctx.isReady = true →
      onUpdateRequest d ctx st = render ctx st) := by
  constructor
  · rintro (h | h) <;> simp [onUpdateRequest, h]
  · intro hd hr
    simp [onUpdateRequest, hd, hr]

/-- Witness for C7: a disposed widget, a not-ready context, and the
unguarded render case, each at concrete inputs. -/
theorem onUpdateRequest_guarded_witness :
    onUpdateRequest true pngContext initialState = initialState ∧
    notReadyContext.isReady = false ∧
    onUpdateRequest false notReadyContext initialState = initialState ∧
    onUpdateRequest false pngContext initialState =
      render pngContext initialState :=
  ⟨(onUpdateRequest_guarded true pngContext initialState).1 (Or.inl rfl),
   rfl,
   (onUpdateRequest_guarded false notReadyContext initialState).1 (Or.inr rfl),
   (onUpdateRequest_guarded false pngContext initialState).2 rfl rfl⟩

/-- Claim C8 (amended): over every event trace from construction, the ready
promise is resolved at most once, a resolution implies the first render has
already completed and the context signaled readiness, and the resolution
count is exactly one whenever readiness fires before any disposal.  The
original claim's unconditional "resolves exactly once" fails when the
widget is disposed before readiness. -/
theorem ready_resolves_at_most_once_after_render (ctx : Context)
    (tr : List Event) :
    (run ctx initialWidget tr).resolveCount ≤ 1 ∧
    ((run ctx initialWidget tr).resolveCount = 1 →
      1 ≤ (run ctx initialWidget tr).renderCalls ∧
      (run ctx initialWidget tr).ctxReady = true) ∧
    (readyBeforeDispose tr = true →
      (run ctx initialWidget tr).resolveCount = 1) := by
  obtain ⟨i1, i2, i3, i4⟩ :=
    run_preserves_resolveInv ctx tr initialWidget
      ⟨fun _ => rfl, Nat.zero_le 1, Nat.le.refl, fun hh => absurd hh (by decide)⟩
  refine ⟨i2, fun hone => ⟨hone ▸ i3, i4 hone⟩, fun ht => ?_⟩
  exact run_resolves_once_of_readyBeforeDispose ctx tr initialWidget rfl rfl ht

/-- Witness for C8: on the trace readiness-then-update the promise resolves
exactly once and a render has completed. -/
theorem ready_resolves_at_most_once_after_render_witness :
    readyBeforeDispose [Event.readyFired, Event.updateRequest] = true ∧
    (run pngContext initialWidget
      [Event.readyFired, Event.updateRequest]).resolveCount = 1 ∧
    1 ≤ (run pngContext initialWidget
      [Event.readyFired, Event.updateRequest]).renderCalls := by
  have h := ready_resolves_at_most_once_after_render pngContext
    [Event.readyFired, Event.updateRequest]
  have h3 := h.2.2 (by decide)
  exact ⟨by decide, h3, (h.2.1 h3).1⟩

/-- Counterexample to C8 as stated: when the widget is disposed before the
context signals readiness, the ready promise never resolves, so it does not
resolve exactly once in every execution. -/
theorem ready_unresolved_when_disposed_before_ready :
    (run pngContext initialWidget
      [Event.dispose, Event.readyFired]).resolveCount = 0 ∧
    (run pngContext initialWidget
      [Event.dispose, Event.readyFired]).ctxReady = true := by
  decide

/-- Claim C9: with no contents model on the context, a render leaves the
state — the image source attribute included — completely unchanged. -/
theorem render_skipped_without_contents_model (ctx : Context)
    (st : ViewerState) (h : ctx.contentsModel = none) :
    render ctx st = st := by
  unfold render
  rw [h]

/-- Witness for C9 on a concrete model-less context. -/
theorem render_skipped_without_contents_model_witness :
    emptyContext.contentsModel = none ∧
    render emptyContext initialState = initialState :=
  ⟨rfl, render_skipped_without_contents_model emptyContext initialState rfl⟩

/-- Claim C10 (amended): the setters perform no validation, so the flip and
color-inversion ranges are invariants only of call sequences whose
arguments themselves lie in those ranges; for every such sequence from the
initial state the stored flips stay in the two-element set and the stored
color inversion stays in the unit interval. -/
theorem ranges_preserved_for_valid_setter_args (cs : List SetterCall)
    (hv : ∀ c ∈ cs, ValidArg c) :
    RangeInv (applySetters cs initialState) := by
  refine applySetters_preserves_range cs initialState hv
    ⟨Or.inr rfl, Or.inr rfl, by norm_num [initialState], by norm_num [initialState]⟩

/-- Witness for C10 on a concrete list of in-range setter calls. -/
theorem ranges_preserved_for_valid_setter_args_witness :
    RangeInv (applySetters validCalls initialState) := by
  apply ranges_preserved_for_valid_setter_args
  intro c hc
  simp only [validCalls, List.mem_cons, List.not_mem_nil, or_false] at hc
  rcases hc with rfl | rfl | rfl | rfl
  · trivial
  · trivial
  · exact Or.inl rfl
  · exact ⟨by norm_num, le_refl 1⟩

/-- Counterexample to C10 as stated: the setters accept out-of-range values
unchecked — a horizontal flip of 0 and a color inversion of 2 are stored as
given, leaving the claimed sets. -/
theorem horizontalflip_unvalidated_counterexample :
    (setHorizontalflip 0 initialState).horizontalflip = 0 ∧
    ¬ ((setHorizontalflip 0 initialState).horizontalflip = -1 ∨
       (setHorizontalflip 0 initialState).horizontalflip = 1) ∧
    (setColorinversion 2 initialState).colorinversion = 2 := by decide

end ImageViewer
